import Mathlib

/-!
Shallow embedding of the single-file Streamlit program `app.py`
(AI Lecture-to-Notes Generator) and proofs about its observable
workflow: configuration, prompt selection, temp-file staging,
remote generation, rendering, download artifact and cleanup.

The embedding models the script as a pure function from its inputs
(secrets store, uploaded file, widget states, behaviour of the remote
generative-model client, a fresh temp-file base name, the set of paths
existing on local storage) to the list of emitted UI widgets plus the
resulting set of paths.  Python exceptions raised by the remote client
are modelled as `Except String`; the `except Exception` handler and the
`finally` block of `app.py` are reproduced structurally.
-/

namespace LectureApp

/-- An uploaded recording: its binary payload (byte list) and the
declared container type (`"mp3"`, `"wav"` or `"m4a"`), as delivered by
`st.file_uploader` in `app.py` line 113. -/
structure UploadedFile where
  payload : List Nat
  declaredType : String
deriving DecidableEq

/-- The observable UI elements the script can emit, in emission order.
Cosmetic CSS/HTML blocks are out of scope (spec section 1). -/
inductive Widget where
  | header (s : String)
  | subheader (s : String)
  | text (s : String)
  | textInput (label default : String)
  | selectbox (label : String) (options : List String)
  | infoBox (s : String)
  | audioPlayer (format : String)
  | button (label : String)
  | errorMsg (s : String)
  | successMsg (s : String)
  | markdown (s : String)
  | downloadButton (label : String) (dataStr : String) (fileName : String) (mime : String)
deriving DecidableEq

/-- Holds exactly on download controls; used to state that a render
shows no download button. -/
def Widget.isDownload : Widget → Bool
  | .downloadButton _ _ _ _ => true
  | _ => false

/-- The remote generative-model client (`genai` in `app.py`): one
upload call taking a local path, one generation call taking the prompt
and the handle returned by the upload.  A raised Python exception is
`Except.error` carrying `str(e)`. -/
structure Remote where
  upload_file : String → Except String String
  generate_content : String → String → Except String String

/-- Substring containment on strings, at the level of character data. -/
def containsSub (s sub : String) : Prop :=
  ∃ pre post : List Char, s.data = pre ++ (sub.data ++ post)

/-- Embeds `lecture_topic.replace(' ', '_')` from `app.py` line 155:
every space character is replaced by an underscore (a single-character
pattern makes Python `str.replace` a character-wise map). -/
def replaceSpaces (s : String) : String :=
  String.mk (s.data.map (fun c => if c = ' ' then '_' else c))

/-- Embeds Python `str.lower()` from `app.py` line 155 (the mode
strings are ASCII, where Python lowercasing agrees with
`Char.toLower`). -/
def pyLower (s : String) : String :=
  String.mk (s.data.map Char.toLower)

/-- The `file_name` argument of `st.download_button`, `app.py` line 155:
`f"{lecture_topic.replace(' ', '_')}_{output_type.lower()}.md"`. -/
def downloadFileName (lecture_topic output_type : String) : String :=
  replaceSpaces lecture_topic ++ "_" ++ pyLower output_type ++ ".md"

/-- Modelled from the spec: section 8 of the spec states the
downloadable filename equals
`{topic with spaces replaced by underscores}_{mode lowercased}.md`. -/
def specFileName (topic mode : String) : String :=
  replaceSpaces topic ++ "_" ++ pyLower mode ++ ".md"

/-- The prompt selection of `app.py` lines 137-142: an
`if`/`elif`/`else` chain on the output mode, interpolating the topic. -/
def selectPrompt (output_type lecture_topic : String) : String :=
  if output_type = "Study Notes" then
    "Summarize this lecture on " ++ lecture_topic ++
      " into structured study notes with headings and bold key terms."
  else if output_type = "Flashcards" then
    "Identify key terms from this lecture on " ++ lecture_topic ++
      " and create Q&A flashcards. Format: **Front:** [Question] **Back:** [Answer]."
  else
    "Create a 5-question multiple choice quiz with correct answers and explanations based on this " ++
      lecture_topic ++ " lecture."

/-- The constant `suffix=".mp3"` passed to `NamedTemporaryFile` in
`app.py` line 129. -/
def tempSuffix : String := ".mp3"

/-- The temp-file suffix as a function of the uploaded recording: the
source passes the literal `".mp3"` whatever the declared type is. -/
def stagingSuffix (_f : UploadedFile) : String := tempSuffix

/-- The `format` argument of `st.audio` in `app.py` line 116: the
literal `audio/mp3` whatever the declared type is. -/
def playbackFormat (_f : UploadedFile) : String := "audio/mp3"

/-- The path of the staging file created by
`NamedTemporaryFile(delete=False, suffix=".mp3")`: a fresh base name
chosen by the library plus the constant suffix. -/
def tempPath (base : String) : String := base ++ tempSuffix

/-- The `finally` block of `app.py` lines 162-164:
`if os.path.exists(temp_audio_path): os.remove(temp_audio_path)`.
Local storage is modelled as the list of existing paths. -/
def removeIfExists (fs : List String) (p : String) : List String :=
  if p ∈ fs then fs.erase p else fs

/-- The widgets emitted by the `try`/`except` of `app.py` lines
133-160: upload, prompt selection, generation; on success a success
banner, a results heading, the response text and the download button;
on any exception the single message `f"Processing Error: {e}"`. -/
def generationWidgets (remote : Remote) (output_type lecture_topic path : String) :
    List Widget :=
  match remote.upload_file path with
  | .error e => [.errorMsg ("Processing Error: " ++ e)]
  | .ok audio_file =>
    match remote.generate_content (selectPrompt output_type lecture_topic) audio_file with
    | .error e => [.errorMsg ("Processing Error: " ++ e)]
    | .ok text =>
      [.successMsg "Analysis Complete!",
       .markdown ("### Results for: " ++ lecture_topic),
       .markdown text,
       .downloadButton "📥 Save Results as Markdown" text
         (downloadFileName lecture_topic output_type) "text/markdown"]

/-- One staging/generation round, `app.py` lines 127-164: the temp
file is created (the payload is written to it; only path existence is
tracked), the `try` block runs, and the `finally` block removes the
temp path whatever the `try` block did. -/
def generationStep (remote : Remote) (output_type lecture_topic tempBase : String)
    (fs : List String) : List Widget × List String :=
  let path := tempPath tempBase
  (generationWidgets remote output_type lecture_topic path,
   removeIfExists (path :: fs) path)

/-- The guard of `app.py` line 126:
`if uploaded_file is not None and generate_button:`. -/
def coreLogic (remote : Remote) (uploaded_file : Option UploadedFile)
    (generate_button : Bool) (output_type lecture_topic tempBase : String)
    (fs : List String) : List Widget × List String :=
  match uploaded_file with
  | some _ =>
    if generate_button then
      generationStep remote output_type lecture_topic tempBase fs
    else ([], fs)
  | none => ([], fs)

/-- The startup configuration of `app.py` lines 9-13: the secrets
store is read; a missing `GEMINI_API_KEY` raises `KeyError`, caught and
turned into one error banner, after which the script continues. -/
def configWidgets (secrets : List (String × String)) : List Widget :=
  match secrets.lookup "GEMINI_API_KEY" with
  | some _ => []
  | none => [.errorMsg "API Key not found. Please set GEMINI_API_KEY in Streamlit Secrets."]

/-- Everything the script renders after the configuration step
(`app.py` lines 21-164): sidebar, upload column (with in-page playback
when a file is present), process column, then the core-logic widgets. -/
def bodyWidgets (remote : Remote) (uploaded_file : Option UploadedFile)
    (generate_button : Bool) (output_type lecture_topic tempBase : String)
    (fs : List String) : List Widget :=
  [Widget.header "📝 Lecture Details",
   Widget.textInput "Topic Name" "New Lecture",
   Widget.header "⚙️ Output Settings",
   Widget.selectbox "Generate Content As:"
     ["Study Notes", "Flashcards", "Multiple Choice Quiz"],
   Widget.infoBox "💡 Tip: This system uses a high-speed multimodal model optimized for processing long academic lectures with high accuracy.",
   Widget.subheader "1. Upload Audio"] ++
  (match uploaded_file with
   | some f => [Widget.audioPlayer (playbackFormat f)]
   | none => []) ++
  [Widget.subheader "2. Process & Results",
   Widget.text "Click below to start the AI transformation.",
   Widget.button ("✨ Generate " ++ output_type)] ++
  (coreLogic remote uploaded_file generate_button output_type lecture_topic tempBase fs).1

/-- The whole script run top to bottom (`app.py` lines 9-164):
configuration, then the body, and the final set of local paths. -/
def renderPage (secrets : List (String × String)) (remote : Remote)
    (uploaded_file : Option UploadedFile) (generate_button : Bool)
    (output_type lecture_topic tempBase : String) (fs : List String) :
    List Widget × List String :=
  (configWidgets secrets ++
    bodyWidgets remote uploaded_file generate_button output_type lecture_topic tempBase fs,
   (coreLogic remote uploaded_file generate_button output_type lecture_topic tempBase fs).2)

/-- The mocked successful response text used in the test scenario of
spec section 8. -/
def mockText : String := "**Front:** What is a cell? **Back:** The basic unit of life."

/-- A client whose upload and generation calls both succeed, the
generation returning `mockText`. -/
def mockRemote : Remote :=
  ⟨fun _ => .ok "files/audio1", fun _ _ => .ok mockText⟩

/-- A client whose upload call raises (e.g. an unconfigured credential
or an exhausted quota). -/
def failRemote : Remote :=
  ⟨fun _ => .error "quota exceeded", fun _ _ => .ok "unused"⟩

/-- C1: for every request, whatever the remote client does (success,
an exception at upload, an exception at generation) and on every other
modelled exit path (no upload, button not pressed), the freshly named
temp file does not exist on local storage after the step. -/
theorem c1_temp_file_always_removed (remote : Remote)
    (uploaded_file : Option UploadedFile) (generate_button : Bool)
    (output_type lecture_topic tempBase : String) (fs : List String)
    (hfresh : tempPath tempBase ∉ fs) :
    tempPath tempBase ∉
      (coreLogic remote uploaded_file generate_button output_type lecture_topic tempBase fs).2 := by
  cases uploaded_file with
  | none => simpa [coreLogic] using hfresh
  | some f =>
    cases generate_button with
    | false => simpa [coreLogic] using hfresh
    | true =>
      simp only [coreLogic, generationStep, removeIfExists,
        if_pos (List.mem_cons_self (tempPath tempBase) fs), List.erase_cons_head]
      exact hfresh

/-- Witness for C1 at a concrete request. -/
theorem c1_witness :
    tempPath "tmpbase" ∉
      (coreLogic mockRemote (some ⟨[1, 2], "wav"⟩) true "Study Notes" "T" "tmpbase" []).2 :=
  c1_temp_file_always_removed mockRemote (some ⟨[1, 2], "wav"⟩) true
    "Study Notes" "T" "tmpbase" [] (by simp)

/-- C2 (counterexample): on topic `Intro to Thermodynamics` and mode
`Study Notes` the code does NOT produce the filename
`Intro_to_Thermodynamics_study_notes.md` claimed by the spec: Python
`lower()` keeps the space inside the mode. -/
theorem c2_literal_example_false :
    downloadFileName "Intro to Thermodynamics" "Study Notes" ≠
      "Intro_to_Thermodynamics_study_notes.md" := by decide

/-- C2 (amended): the filename is the topic with spaces replaced by
underscores, an underscore, the mode lowercased, and `.md`; the
literal example yields `Intro_to_Thermodynamics_study notes.md` (the
space inside the lowercased mode is kept). -/
theorem c2_filename_formula :
    (∀ t m : String, downloadFileName t m = specFileName t m) ∧
      downloadFileName "Intro to Thermodynamics" "Study Notes" =
        "Intro_to_Thermodynamics_study notes.md" :=
  ⟨fun _ _ => rfl, by decide⟩

/-- C3: with no uploaded recording, the core logic emits no widget (no
output, no error), leaves local storage untouched, and its result does
not depend on the remote client at all (no staging, no remote call),
for every topic, mode and button state. -/
theorem c3_absent_recording_noop (r1 r2 : Remote) (generate_button : Bool)
    (output_type lecture_topic tempBase : String) (fs : List String) :
    coreLogic r1 none generate_button output_type lecture_topic tempBase fs = ([], fs) ∧
      coreLogic r1 none generate_button output_type lecture_topic tempBase fs =
        coreLogic r2 none generate_button output_type lecture_topic tempBase fs :=
  ⟨rfl, rfl⟩

/-- C4: when upload and generation succeed with response text `r`, the
step renders exactly the success banner, the results heading, the text
`r` unmodified, and a download control whose content is `r` exactly. -/
theorem c4_success_renders_exact_text (remote : Remote)
    (output_type lecture_topic tempBase : String) (fs : List String)
    (hAudio r : String)
    (hu : remote.upload_file (tempPath tempBase) = .ok hAudio)
    (hg : remote.generate_content (selectPrompt output_type lecture_topic) hAudio = .ok r) :
    (generationStep remote output_type lecture_topic tempBase fs).1 =
      [Widget.successMsg "Analysis Complete!",
       Widget.markdown ("### Results for: " ++ lecture_topic),
       Widget.markdown r,
       Widget.downloadButton "📥 Save Results as Markdown" r
         (downloadFileName lecture_topic output_type) "text/markdown"] := by
  simp [generationStep, generationWidgets, hu, hg]

/-- Witness for C4 on the mocked response of spec section 8. -/
theorem c4_success_witness :
    (generationStep mockRemote "Flashcards" "Cell Biology" "tmpbase" []).1 =
      [Widget.successMsg "Analysis Complete!",
       Widget.markdown ("### Results for: " ++ "Cell Biology"),
       Widget.markdown mockText,
       Widget.downloadButton "📥 Save Results as Markdown" mockText
         (downloadFileName "Cell Biology" "Flashcards") "text/markdown"] :=
  c4_success_renders_exact_text mockRemote "Flashcards" "Cell Biology" "tmpbase" []
    "files/audio1" mockText rfl rfl

/-- C5: if the upload call or the generation call raises an error `e`,
the step renders exactly one error message, that message contains the
description of `e`, no download control is shown, and local storage is
back to its pre-request state (ready for another attempt). -/
theorem c5_error_caught_no_download (remote : Remote)
    (output_type lecture_topic tempBase : String) (fs : List String) (e : String)
    (herr : remote.upload_file (tempPath tempBase) = .error e ∨
      ∃ hAudio, remote.upload_file (tempPath tempBase) = .ok hAudio ∧
        remote.generate_content (selectPrompt output_type lecture_topic) hAudio = .error e) :
    (generationStep remote output_type lecture_topic tempBase fs).1 =
        [Widget.errorMsg ("Processing Error: " ++ e)] ∧
      containsSub ("Processing Error: " ++ e) e ∧
      ((generationStep remote output_type lecture_topic tempBase fs).1.any Widget.isDownload)
        = false ∧
      (generationStep remote output_type lecture_topic tempBase fs).2 = fs := by
  have h1 : (generationStep remote output_type lecture_topic tempBase fs).1 =
      [Widget.errorMsg ("Processing Error: " ++ e)] := by
    rcases herr with h | ⟨hAudio, hup, hgen⟩
    · simp [generationStep, generationWidgets, h]
    · simp [generationStep, generationWidgets, hup, hgen]
  refine ⟨h1, ⟨("Processing Error: ").data, [], by simp [String.data_append]⟩, ?_, ?_⟩
  · rw [h1]; simp [Widget.isDownload]
  · simp only [generationStep, removeIfExists,
      if_pos (List.mem_cons_self (tempPath tempBase) fs), List.erase_cons_head]

/-- Witness for C5 with a failing upload call. -/
theorem c5_error_witness :
    (generationStep failRemote "Study Notes" "T" "tmpbase" []).1 =
        [Widget.errorMsg ("Processing Error: " ++ "quota exceeded")] ∧
      containsSub ("Processing Error: " ++ "quota exceeded") "quota exceeded" ∧
      ((generationStep failRemote "Study Notes" "T" "tmpbase" []).1.any Widget.isDownload)
        = false ∧
      (generationStep failRemote "Study Notes" "T" "tmpbase" []).2 = [] :=
  c5_error_caught_no_download failRemote "Study Notes" "T" "tmpbase" []
    "quota exceeded" (Or.inl rfl)

/-- C6: the prompt selector is a pure function of the pair
(mode, topic): equal inputs give the equal instruction string. -/
theorem c6_prompt_selector_deterministic (m t m2 t2 : String)
    (hm : m = m2) (ht : t = t2) :
    selectPrompt m t = selectPrompt m2 t2 := by
  rw [hm, ht]

/-- Witness for C6 at a concrete (mode, topic) pair. -/
theorem c6_witness :
    selectPrompt "Flashcards" "Cell Biology" = selectPrompt "Flashcards" "Cell Biology" :=
  c6_prompt_selector_deterministic "Flashcards" "Cell Biology" "Flashcards" "Cell Biology"
    rfl rfl

/-- C7: for mode Flashcards and any topic `t`, the selected prompt
contains `t` and contains the substring `flashcards`. -/
theorem c7_flashcards_prompt_substrings (t : String) :
    containsSub (selectPrompt "Flashcards" t) t ∧
      containsSub (selectPrompt "Flashcards" t) "flashcards" := by
  have hsel : selectPrompt "Flashcards" t =
      "Identify key terms from this lecture on " ++ t ++
        " and create Q&A flashcards. Format: **Front:** [Question] **Back:** [Answer]." := by
    unfold selectPrompt
    rw [if_neg (by decide), if_pos rfl]
  constructor
  · exact ⟨("Identify key terms from this lecture on ").data,
      (" and create Q&A flashcards. Format: **Front:** [Question] **Back:** [Answer].").data,
      by rw [hsel]; simp [String.data_append]⟩
  · refine ⟨("Identify key terms from this lecture on ").data ++ t.data ++
      (" and create Q&A ").data,
      (". Format: **Front:** [Question] **Back:** [Answer].").data, ?_⟩
    rw [hsel]
    simp only [String.data_append, List.append_assoc]
    congr 2

/-- C8: with the credential absent from the secrets store, the page is
the configuration-error banner followed by the entire rest of the
interface (no crash, everything below still renders), and a generation
attempt whose remote call raises then fails at that remote call with
the usual processing-error message. -/
theorem c8_missing_key_banner_continues (secrets : List (String × String))
    (remote : Remote) (uploaded_file : Option UploadedFile) (f : UploadedFile)
    (generate_button : Bool) (output_type lecture_topic tempBase e : String)
    (fs : List String)
    (hk : secrets.lookup "GEMINI_API_KEY" = none)
    (hre : remote.upload_file (tempPath tempBase) = .error e) :
    (renderPage secrets remote uploaded_file generate_button output_type lecture_topic
        tempBase fs).1 =
      Widget.errorMsg "API Key not found. Please set GEMINI_API_KEY in Streamlit Secrets." ::
        bodyWidgets remote uploaded_file generate_button output_type lecture_topic
          tempBase fs ∧
      (coreLogic remote (some f) true output_type lecture_topic tempBase fs).1 =
        [Widget.errorMsg ("Processing Error: " ++ e)] := by
  constructor
  · simp [renderPage, configWidgets, hk]
  · simp [coreLogic, generationStep, generationWidgets, hre]

/-- Witness for C8: empty secrets store, failing remote client. -/
theorem c8_witness :
    (renderPage [] failRemote (some ⟨[1], "mp3"⟩) false "Study Notes" "T" "tmpbase" []).1 =
      Widget.errorMsg "API Key not found. Please set GEMINI_API_KEY in Streamlit Secrets." ::
        bodyWidgets failRemote (some ⟨[1], "mp3"⟩) false "Study Notes" "T" "tmpbase" [] ∧
      (coreLogic failRemote (some ⟨[1], "mp3"⟩) true "Study Notes" "T" "tmpbase" []).1 =
        [Widget.errorMsg ("Processing Error: " ++ "quota exceeded")] :=
  c8_missing_key_banner_continues [] failRemote (some ⟨[1], "mp3"⟩) ⟨[1], "mp3"⟩ false
    "Study Notes" "T" "tmpbase" "quota exceeded" [] rfl rfl

/-- C9: whatever the declared container type of the uploaded
recording, the staging suffix is the literal `.mp3`, in-page playback
declares `audio/mp3`, neither depends on the recording, the staged
path ends in `.mp3`, and the rendered page with a file present shows
an `audio/mp3` player. -/
theorem c9_staging_mp3_independent (f g : UploadedFile)
    (secrets : List (String × String)) (remote : Remote) (generate_button : Bool)
    (output_type lecture_topic tempBase : String) (fs : List String) :
    stagingSuffix f = ".mp3" ∧ playbackFormat f = "audio/mp3" ∧
      stagingSuffix f = stagingSuffix g ∧ playbackFormat f = playbackFormat g ∧
      tempPath tempBase = tempBase ++ ".mp3" ∧
      Widget.audioPlayer "audio/mp3" ∈
        (renderPage secrets remote (some f) generate_button output_type lecture_topic
          tempBase fs).1 := by
  refine ⟨rfl, rfl, rfl, rfl, rfl, ?_⟩
  simp [renderPage, bodyWidgets, playbackFormat]

/-- C10: the prompt selection is total over all mode strings, with the
multiple-choice-quiz prompt as the fallback for every mode other than
`Study Notes` and `Flashcards`. -/
theorem c10_prompt_total_quiz_fallback (m t : String)
    (h1 : m ≠ "Study Notes") (h2 : m ≠ "Flashcards") :
    selectPrompt m t =
      "Create a 5-question multiple choice quiz with correct answers and explanations based on this " ++
        t ++ " lecture." := by
  unfold selectPrompt
  rw [if_neg h1, if_neg h2]

/-- Witness for C10 at a mode string that is none of the three fixed
values. -/
theorem c10_witness :
    selectPrompt "Quiz" "Algebra" =
      "Create a 5-question multiple choice quiz with correct answers and explanations based on this " ++
        "Algebra" ++ " lecture." :=
  c10_prompt_total_quiz_fallback "Quiz" "Algebra" (by decide) (by decide)

end LectureApp
